import Mathlib

/-!
Verification of the gitsynth commit-agent core (src/gitsynth/core/commit_agent.py
and src/gitsynth/core/git.py) against its natural-language specification.

The Python code is shallowly embedded: each workflow node of the langgraph
state machine becomes a Lean function on an explicit `AgentState`; the language
model is an oracle (its responses are inputs); the `unidiff` library is
abstracted by a `PatchedFile` record carrying exactly the flags and hunk data
the repository code reads from it; pydantic `Literal` validation becomes an
explicit membership check that returns `Except.error` on failure, mirroring a
raised `ValidationError`.
-/

/-- The closed literal set of `GitFileChange.change_type`
(commit_agent.py line 46). -/
inductive ChangeType where
  | NEW
  | DELETED
  | RENAMED
  | MODE_CHANGED
  | MODIFIED
  | BINARY
  | SUBMODULE
  | CONFLICT
deriving DecidableEq, Repr

/-- One entry of the `hunks` list built in `parse_git_diff`
(commit_agent.py lines 180-188). -/
structure Hunk where
  old_start : Nat
  old_length : Nat
  new_start : Nat
  new_length : Nat
  added_lines : Nat
  removed_lines : Nat
  modified_lines : Nat
deriving DecidableEq, Repr

/-- Pydantic model `GitFileChange` (commit_agent.py lines 43-51). -/
structure GitFileChange where
  path : String
  change_type : ChangeType
  old_path : Option String
  added_lines : Nat
  removed_lines : Nat
  hunks : List Hunk
  purpose : String
deriving DecidableEq, Repr

/-- A line of a hunk as exposed by unidiff (`l.is_added`, `l.is_removed`). -/
structure DiffLine where
  is_added : Bool
  is_removed : Bool
deriving DecidableEq, Repr

/-- A hunk as exposed by unidiff: the ranges read in `parse_git_diff`
(source/target start and length) and the lines iterated over. -/
structure RawHunk where
  source_start : Nat
  source_length : Nat
  target_start : Nat
  target_length : Nat
  lines : List DiffLine
deriving DecidableEq, Repr

/-- A `unidiff.PatchedFile` abstracted to exactly the attributes that
`parse_git_diff` (commit_agent.py lines 143-203) reads from it. -/
structure PatchedFile where
  path : String
  source_file : String
  is_added_file : Bool
  is_removed_file : Bool
  is_rename : Bool
  is_binary_file : Bool
  hunks : List RawHunk
deriving DecidableEq, Repr

/-- Python `str.lstrip(chars)`: drop leading characters while they belong to
the given character set.  `path.lstrip('b/')` and `source_file.lstrip('a/')`
in `parse_git_diff` use this (lines 145, 154, 158). -/
def lstripChars (cs : List Char) (s : String) : String :=
  String.mk (s.data.dropWhile (fun c => cs.contains c))

/-- The `hunk_info` dictionary built for each hunk
(commit_agent.py lines 180-188). -/
def hunkInfo (h : RawHunk) : Hunk :=
  { old_start := h.source_start
    old_length := h.source_length
    new_start := h.target_start
    new_length := h.target_length
    added_lines := (h.lines.filter (fun l => l.is_added)).length
    removed_lines := (h.lines.filter (fun l => l.is_removed)).length
    modified_lines := h.lines.length }

/-- The per-file body of `parse_git_diff` (commit_agent.py lines 143-203):
classification of the change type, optional old path, hunk records and the
line-count totals. -/
def parseFileChange (pf : PatchedFile) : GitFileChange :=
  let path := lstripChars ['b', '/'] pf.path
  let ct_op : ChangeType × Option String :=
    if pf.is_added_file then (ChangeType.NEW, none)
    else if pf.is_removed_file then
      (ChangeType.DELETED, some (lstripChars ['a', '/'] pf.source_file))
    else if pf.is_rename then
      (ChangeType.RENAMED, some (lstripChars ['a', '/'] pf.source_file))
    else if pf.is_binary_file then (ChangeType.BINARY, none)
    else (ChangeType.MODIFIED, none)
  let hunks := pf.hunks.map hunkInfo
  let total_added := (pf.hunks.map
    (fun h => (h.lines.filter (fun l => l.is_added)).length)).sum
  let total_removed := (pf.hunks.map
    (fun h => (h.lines.filter (fun l => l.is_removed)).length)).sum
  { path := path
    change_type := ct_op.1
    old_path := ct_op.2
    added_lines := total_added
    removed_lines := total_removed
    hunks := hunks
    purpose := "" }

/-- The function `parse_git_diff` over a whole patch set, one `GitFileChange` per file
section, in order (commit_agent.py lines 133-205). -/
def parse_git_diff (ps : List PatchedFile) : List GitFileChange :=
  ps.map parseFileChange

/-- Concrete deleted-file section: `is_removed_file` holds, so the code takes
the `DELETED` branch (commit_agent.py lines 152-155). -/
def pfDeleted : PatchedFile :=
  { path := "old.py"
    source_file := "a/old.py"
    is_added_file := false
    is_removed_file := true
    is_rename := false
    is_binary_file := false
    hunks := [] }

/-- Concrete file section carrying only a mode change: unidiff reports no
added/removed/rename/binary flag and no hunks. -/
def pfModeOnly : PatchedFile :=
  { path := "script.sh"
    source_file := "a/script.sh"
    is_added_file := false
    is_removed_file := false
    is_rename := false
    is_binary_file := false
    hunks := [] }

/-- Claim C6 counterexample: the parser sets `old_path` for a DELETED file as
well (commit_agent.py line 154), so "old_path is non-None iff change_type is
RENAMED" fails: the deleted-file section yields change_type DELETED with
`old_path = some "old.py"`. -/
theorem c6_deleted_old_path_counterexample :
    (parseFileChange pfDeleted).change_type = ChangeType.DELETED ∧
    (parseFileChange pfDeleted).old_path = some "old.py" ∧
    ¬ ((parseFileChange pfDeleted).old_path.isSome = true ↔
        (parseFileChange pfDeleted).change_type = ChangeType.RENAMED) := by
  decide

/-- Claim C6 (amended): for every FileChange emitted by the diff parser,
`old_path` is non-None if and only if the change type is DELETED or RENAMED;
NEW, BINARY and MODIFIED entries carry no old_path. -/
theorem c6_old_path_iff_deleted_or_renamed (pf : PatchedFile) :
    (parseFileChange pf).old_path.isSome = true ↔
      ((parseFileChange pf).change_type = ChangeType.DELETED ∨
        (parseFileChange pf).change_type = ChangeType.RENAMED) := by
  simp only [parseFileChange]
  split_ifs <;> simp

/-- Claim C7 counterexample: a file section carrying only a mode change (no
added/removed/rename/binary flag, no hunks) is classified by the final `else`
branch of `parse_git_diff` as MODIFIED, not MODE_CHANGED; the line counts are
0. -/
theorem c7_mode_change_counterexample :
    (parseFileChange pfModeOnly).change_type ≠ ChangeType.MODE_CHANGED ∧
    (parseFileChange pfModeOnly).change_type = ChangeType.MODIFIED ∧
    (parseFileChange pfModeOnly).added_lines = 0 ∧
    (parseFileChange pfModeOnly).removed_lines = 0 := by
  decide

/-- Claim C7 (amended): the parser never assigns MODE_CHANGED at all, and a
file section with no classification flags and no content hunks yields
change_type MODIFIED with `added_lines = 0` and `removed_lines = 0`. -/
theorem c7_mode_only_yields_modified :
    (∀ pf : PatchedFile,
      (parseFileChange pf).change_type ≠ ChangeType.MODE_CHANGED) ∧
    (∀ pf : PatchedFile,
      pf.is_added_file = false → pf.is_removed_file = false →
      pf.is_rename = false → pf.is_binary_file = false → pf.hunks = [] →
      (parseFileChange pf).change_type = ChangeType.MODIFIED ∧
      (parseFileChange pf).added_lines = 0 ∧
      (parseFileChange pf).removed_lines = 0) := by
  constructor
  · intro pf
    simp only [parseFileChange]
    split_ifs <;> simp
  · intro pf ha hr hren hb hh
    simp [parseFileChange, ha, hr, hren, hb, hh]

/-- Claim C7 witness: the amended statement evaluated at the concrete
mode-change-only file section. -/
theorem c7_mode_only_yields_modified_witness :
    (parseFileChange pfModeOnly).change_type = ChangeType.MODIFIED ∧
    (parseFileChange pfModeOnly).added_lines = 0 ∧
    (parseFileChange pfModeOnly).removed_lines = 0 :=
  c7_mode_only_yields_modified.2 pfModeOnly rfl rfl rfl rfl rfl

/-- Messages threaded through `AgentState.messages`.  Structured payloads
(the analysis JSON appended in `analyze_changes` and the `CommitQuality` JSON
appended in `check_quality`) are carried as values: the Python code serializes
them with `model_dump_json` / `json.dumps` and deserializes with `json.loads`,
and that round trip is the identity. -/
inductive Msg where
  | human (content : String)
  | ai (content : String)
  | aiAnalysis (summary : String) (change_type : String)
      (files : List GitFileChange) (breaking_change : Bool)
  | aiQuality (is_valid : Bool)
deriving DecidableEq, Repr

/-- Reading `.content` of a message where the code reads it as plain text. -/
def Msg.contentText : Msg → String
  | .human s => s
  | .ai s => s
  | .aiAnalysis _ _ _ _ => ""
  | .aiQuality _ => ""

/-- Pydantic model `GitDiffAnalysis` (commit_agent.py lines 53-58).  The
`change_type` field is kept as a `String`; the pydantic `Literal` check is
performed by `mkGitDiffAnalysis`. -/
structure GitDiffAnalysis where
  summary : String
  change_type : String
  files : List GitFileChange
  breaking_change : Bool
deriving DecidableEq, Repr

/-- One record of the `message_history` ledger.  The dictionaries appended in
`check_quality` and `improve_message` carry an `attempt`, a `message`, an
optional parsed `quality_check` verdict, a `status` and an optional `reason`
key (commit_agent.py lines 517-522, 530-535, 555-560, 590-594). -/
structure LedgerEntry where
  attempt : Nat
  message : String
  quality_check : Option Bool
  status : String
  reason : Option String
deriving DecidableEq, Repr

/-- The langgraph `AgentState` TypedDict (commit_agent.py lines 74-81). -/
structure AgentState where
  messages : List Msg
  attempts : Nat
  next : String
  analysis : Option GitDiffAnalysis
  final_message : Option String
  message_history : List LedgerEntry
deriving DecidableEq, Repr

/-- Python `state["messages"][-1].content` read as text. -/
def lastContent (s : AgentState) : String :=
  ((s.messages.getLast?).map Msg.contentText).getD ""

/-- Python `messages[-2].content` read as text (used by `improve_message`). -/
def penultContent (ms : List Msg) : String :=
  ((ms.dropLast.getLast?).map Msg.contentText).getD ""

/-- Python `json.loads(messages[-1].content)` when the last message is the
serialized `CommitQuality` appended by `check_quality`. -/
def lastQuality (ms : List Msg) : Option Bool :=
  match ms.getLast? with
  | some (Msg.aiQuality b) => some b
  | _ => none

/-- The `status` key of the first ledger entry appended by `check_quality`
(commit_agent.py line 521): `"success" if quality.is_valid else "failed"`. -/
def qualityStatus (b : Bool) : String :=
  if b then "success" else "failed"

/-- Node 4 `check_quality` (commit_agent.py lines 464-540).  The model's
binary verdict is the oracle input `b`.  The node appends the serialized
verdict to `messages`, records a `{attempt, message, quality_check, status}`
ledger entry, and then either force-accepts (verdict valid or `attempts >= 5`:
sets `final_message`, routes to `generate_changelog`, and appends a second
`status="final"` ledger entry) or increments `attempts` and routes to
`improve_message`. -/
def check_quality (b : Bool) (s : AgentState) : AgentState :=
  let message := lastContent s
  let base : AgentState :=
    { s with
      messages := s.messages ++ [Msg.aiQuality b]
      message_history := s.message_history ++
        [⟨s.attempts, message, some b, qualityStatus b, none⟩] }
  if b = true ∨ 5 ≤ s.attempts then
    { base with
      final_message := some message
      next := "generate_changelog"
      message_history := base.message_history ++
        [⟨s.attempts, message, none, "final",
          some (if b then "valid" else "max_attempts_reached")⟩] }
  else
    { base with attempts := s.attempts + 1, next := "improve_message" }

/-- Node 5 `improve_message` (commit_agent.py lines 542-601).  `resp` is the
model's rewritten message (the raw completion text; the code applies
`.strip()`).  The node records a `status="failed"` entry for the rejected
message and a `status="improved"` entry for the new one, appends the new
message, and routes back to `check_quality`. -/
def improve_message (resp : String) (s : AgentState) : AgentState :=
  let commit_message := penultContent s.messages
  let qc := lastQuality s.messages
  let message := resp.trim
  { s with
    message_history := s.message_history ++
      [⟨s.attempts, commit_message, qc, "failed", none⟩,
       ⟨s.attempts, message, none, "improved", none⟩]
    messages := s.messages ++ [Msg.ai message]
    next := "check_quality" }

/-- Result of running the CheckQuality/ImproveMessage cycle of the graph:
the state on leaving the cycle, the number of `check_quality` node
executions and the number of `improve_message` node executions. -/
structure LoopOut where
  state : AgentState
  checks : Nat
  improves : Nat
deriving DecidableEq, Repr

/-- The model verdicts and rewritten messages consumed by the cycle, indexed
by the `check_quality` execution number. -/
structure QualityOracle where
  verdicts : Nat → Bool
  improved : Nat → String

/-- The CheckQuality ⇄ ImproveMessage cycle of the compiled graph
(`create_graph`, commit_agent.py lines 725-733): run `check_quality`, follow
the conditional edge on `state["next"]`, and loop through `improve_message`
until the node routes to `generate_changelog`.  The graph itself recurses
without any structural bound, so the recursion is given explicit fuel and
exhaustion returns `none`; the termination theorems below show fuel 6 always
suffices from a fresh state. -/
def runQualityLoop (o : QualityOracle) : Nat → Nat → AgentState → Option LoopOut
  | 0, _, _ => none
  | fuel + 1, k, s =>
    let s1 := check_quality (o.verdicts k) s
    if s1.next = "improve_message" then
      match runQualityLoop o fuel (k + 1) (improve_message (o.improved k) s1) with
      | none => none
      | some r => some ⟨r.state, r.checks + 1, r.improves + 1⟩
    else
      some ⟨s1, 1, 0⟩

lemma check_quality_accept (b : Bool) (s : AgentState)
    (h : b = true ∨ 5 ≤ s.attempts) :
    (check_quality b s).next = "generate_changelog" ∧
    (check_quality b s).final_message = some (lastContent s) ∧
    (check_quality b s).attempts = s.attempts ∧
    (check_quality b s).analysis = s.analysis := by
  simp only [check_quality]
  rw [if_pos h]
  exact ⟨rfl, rfl, rfl, rfl⟩

lemma check_quality_reject (b : Bool) (s : AgentState)
    (h : ¬ (b = true ∨ 5 ≤ s.attempts)) :
    (check_quality b s).next = "improve_message" ∧
    (check_quality b s).attempts = s.attempts + 1 ∧
    (check_quality b s).analysis = s.analysis := by
  simp only [check_quality]
  rw [if_neg h]
  exact ⟨rfl, rfl, rfl⟩

lemma improve_message_frame (resp : String) (s : AgentState) :
    (improve_message resp s).attempts = s.attempts ∧
    (improve_message resp s).analysis = s.analysis ∧
    (improve_message resp s).next = "check_quality" :=
  ⟨rfl, rfl, rfl⟩

/-- Core termination/bound lemma for the CheckQuality ⇄ ImproveMessage cycle:
from any state with at most 5 recorded attempts, any fuel of at least
`6 - attempts` makes the loop leave through the `generate_changelog` edge,
with at least one and at most `6 - attempts` CheckQuality executions, a set
`final_message`, the attempts counter still at most 5, and the stored
analysis untouched. -/
lemma runQualityLoop_total (o : QualityOracle) :
    ∀ fuel k s, s.attempts ≤ 5 → 6 - s.attempts ≤ fuel →
    ∃ r, runQualityLoop o fuel k s = some r ∧
      r.state.next = "generate_changelog" ∧
      r.checks + s.attempts ≤ 6 ∧
      1 ≤ r.checks ∧
      r.state.attempts ≤ 5 ∧
      (∃ m, r.state.final_message = some m) ∧
      r.state.analysis = s.analysis := by
  intro fuel
  induction fuel with
  | zero => intro k s h5 hf; omega
  | succ n ih =>
    intro k s h5 hf
    by_cases hacc : o.verdicts k = true ∨ 5 ≤ s.attempts
    · obtain ⟨hnx, hfm, hat, han⟩ := check_quality_accept (o.verdicts k) s hacc
      refine ⟨⟨check_quality (o.verdicts k) s, 1, 0⟩, ?_, hnx, ?_, ?_, ?_,
        ⟨lastContent s, hfm⟩, han⟩
      · simp only [runQualityLoop, hnx]
        rw [if_neg (by decide)]
      · show 1 + s.attempts ≤ 6
        omega
      · exact le_refl 1
      · show (check_quality (o.verdicts k) s).attempts ≤ 5
        rw [hat]
        exact h5
    · obtain ⟨hnx, hat, han⟩ := check_quality_reject (o.verdicts k) s hacc
      have hlt : s.attempts < 5 := by
        rcases not_or.mp hacc with ⟨_, h2⟩
        omega
      obtain ⟨hiat, hian, _⟩ :=
        improve_message_frame (o.improved k) (check_quality (o.verdicts k) s)
      have hat2 :
          (improve_message (o.improved k) (check_quality (o.verdicts k) s)).attempts
            = s.attempts + 1 := by rw [hiat, hat]
      obtain ⟨r, hr, rnx, rc, r1, rat, rfm, ran⟩ :=
        ih (k + 1) (improve_message (o.improved k) (check_quality (o.verdicts k) s))
          (by omega) (by omega)
      rw [hat2] at rc
      refine ⟨⟨r.state, r.checks + 1, r.improves + 1⟩, ?_, rnx, ?_, ?_, rat, rfm, ?_⟩
      · simp only [runQualityLoop, hnx]
        rw [if_pos trivial, hr]
      · show r.checks + 1 + s.attempts ≤ 6
        omega
      · show 1 ≤ r.checks + 1
        omega
      · show r.state.analysis = s.analysis
        rw [ran, hian, han]

/-- The outcome the C1 claim requires of the quality cycle: it terminates,
leaves through the `generate_changelog` edge with at most 6 CheckQuality
executions, a set `final_message`, and at most 5 recorded attempts. -/
def LoopReachesChangelog6 : Option LoopOut → Prop
  | none => False
  | some r =>
      r.checks ≤ 6 ∧ r.state.next = "generate_changelog" ∧
      r.state.attempts ≤ 5 ∧ r.state.final_message.isSome = true

/-- Claim C1: the quality-retry loop is bounded.  The attempts counter never
exceeds 5 (`check_quality` preserves the bound and `improve_message` leaves
it unchanged); a `check_quality` pass whose verdict is valid or whose
attempts counter has reached 5 sets `final_message` and routes to the
changelog node regardless of the verdict; and from a fresh state
(`attempts = 0`), for any verdict sequence and any recursion budget of at
least 6, the cycle executes CheckQuality at most 6 times and always leaves
towards the changelog node. -/
theorem c1_quality_retry_bounded :
    (∀ (b : Bool) (s : AgentState), s.attempts ≤ 5 →
      (check_quality b s).attempts ≤ 5) ∧
    (∀ (m : String) (s : AgentState),
      (improve_message m s).attempts = s.attempts) ∧
    (∀ (b : Bool) (s : AgentState), b = true ∨ 5 ≤ s.attempts →
      (check_quality b s).final_message = some (lastContent s) ∧
      (check_quality b s).next = "generate_changelog") ∧
    (∀ (o : QualityOracle) (fuel k : Nat) (s : AgentState),
      s.attempts = 0 → 6 ≤ fuel →
      LoopReachesChangelog6 (runQualityLoop o fuel k s)) := by
  refine ⟨?_, ?_, ?_, ?_⟩
  · intro b s h5
    by_cases hacc : b = true ∨ 5 ≤ s.attempts
    · rw [(check_quality_accept b s hacc).2.2.1]
      exact h5
    · rw [(check_quality_reject b s hacc).2.1]
      rcases not_or.mp hacc with ⟨_, h2⟩
      omega
  · intro m s
    exact (improve_message_frame m s).1
  · intro b s hacc
    obtain ⟨hnx, hfm, _, _⟩ := check_quality_accept b s hacc
    exact ⟨hfm, hnx⟩
  · intro o fuel k s h0 hfuel
    obtain ⟨r, hr, rnx, rc, _, rat, ⟨m, rfm⟩, _⟩ :=
      runQualityLoop_total o fuel k s (by omega) (by omega)
    rw [hr]
    exact ⟨by omega, rnx, rat, by rw [rfm]; rfl⟩

/-- Fresh state entering the quality gate with one generated message, as
produced by an ordinary run before the first `check_quality` execution. -/
def c1State : AgentState :=
  { messages := [Msg.ai "feat: add parser"]
    attempts := 0
    next := "check_quality"
    analysis := none
    final_message := none
    message_history := [] }

/-- The same state after the attempts budget is exhausted. -/
def c1StateMax : AgentState :=
  { c1State with attempts := 5 }

/-- A model that always rejects and always proposes the same rewrite. -/
def c1Oracle : QualityOracle :=
  { verdicts := fun _ => false
    improved := fun _ => "fix: improved" }

/-- Claim C1 witness: the bound evaluated at concrete states, including the
always-reject model, which is forced out of the loop after 6 CheckQuality
executions. -/
theorem c1_quality_retry_bounded_witness :
    (check_quality false c1State).attempts ≤ 5 ∧
    (improve_message "chore: m" c1State).attempts = c1State.attempts ∧
    ((check_quality false c1StateMax).final_message =
        some (lastContent c1StateMax) ∧
      (check_quality false c1StateMax).next = "generate_changelog") ∧
    LoopReachesChangelog6 (runQualityLoop c1Oracle 6 0 c1State) :=
  ⟨c1_quality_retry_bounded.1 false c1State (by decide),
   c1_quality_retry_bounded.2.1 "chore: m" c1State,
   c1_quality_retry_bounded.2.2.1 false c1StateMax (Or.inr (by decide)),
   c1_quality_retry_bounded.2.2.2 c1Oracle 6 0 c1State rfl (by decide)⟩

/-- Fresh state entering the quality gate, used for the C9 counterexample. -/
def c9State : AgentState :=
  { messages := [Msg.ai "feat: add x"]
    attempts := 0
    next := "check_quality"
    analysis := none
    final_message := none
    message_history := [] }

/-- Claim C9 counterexample: an accepting `check_quality` execution appends
TWO ledger entries, not one (the verdict record and the `status="final"`
record, commit_agent.py lines 517-522 and 530-535), and the first entry's
status is `"success"`, which is outside the claimed set
`{failed, improved, final}`. -/
theorem c9_ledger_counterexample :
    (check_quality true c9State).message_history.length = 2 ∧
    (check_quality true c9State).message_history.map LedgerEntry.status =
      ["success", "final"] ∧
    ¬ ("success" ∈ (["failed", "improved", "final"] : List String)) := by
  decide

/-- Claim C9 (amended): every `check_quality` execution appends one
`{attempt, message, quality_check, status}` entry whose status is `success`
or `failed`, plus a second `status="final"` entry when it accepts; every
`improve_message` execution appends a `status="failed"` and a
`status="improved"` entry; so statuses are drawn from
`{success, failed, improved, final}` and the existing ledger is only ever
extended. -/
theorem c9_ledger_shape (b : Bool) (s : AgentState) (m : String) :
    (∃ t, (check_quality b s).message_history = s.message_history ++ t ∧
      t.map LedgerEntry.status =
        (if b = true ∨ 5 ≤ s.attempts then [qualityStatus b, "final"]
         else ["failed"])) ∧
    (∃ t, (improve_message m s).message_history = s.message_history ++ t ∧
      t.map LedgerEntry.status = ["failed", "improved"]) ∧
    (qualityStatus b = "success" ∨ qualityStatus b = "failed") := by
  refine ⟨?_,
    ⟨[⟨s.attempts, penultContent s.messages, lastQuality s.messages, "failed", none⟩,
      ⟨s.attempts, m.trim, none, "improved", none⟩], rfl, rfl⟩, ?_⟩
  · by_cases h : b = true ∨ 5 ≤ s.attempts
    · refine ⟨[⟨s.attempts, lastContent s, some b, qualityStatus b, none⟩,
        ⟨s.attempts, lastContent s, none, "final",
          some (if b then "valid" else "max_attempts_reached")⟩], ?_, ?_⟩
      · simp only [check_quality]
        rw [if_pos h]
        simp
      · rw [if_pos h]
        rfl
    · have hb : b = false := by
        rcases not_or.mp h with ⟨h1, _⟩
        cases b
        · rfl
        · exact absurd rfl h1
      refine ⟨[⟨s.attempts, lastContent s, some b, qualityStatus b, none⟩], ?_, ?_⟩
      · simp only [check_quality]
        rw [if_neg h]
      · rw [if_neg h, hb]
        rfl
  · cases b
    · exact Or.inr rfl
    · exact Or.inl rfl

/-- The per-file body of `analyze_changes` (commit_agent.py lines 247-312):
one model completion is requested per parsed file; `resp` is
`json.loads(response)["purpose"]` when that extraction succeeds and `none`
when any exception is raised, in which case the templated fallback purpose
`"Changes in {path}"` is used.  In both branches every other field is copied
from the parsed `GitFileChange`. -/
def analyzeFile (resp : Option String) (fc : GitFileChange) : GitFileChange :=
  match resp with
  | some purpose =>
      { path := fc.path
        change_type := fc.change_type
        old_path := fc.old_path
        added_lines := fc.added_lines
        removed_lines := fc.removed_lines
        hunks := fc.hunks
        purpose := purpose }
  | none =>
      { path := fc.path
        change_type := fc.change_type
        old_path := fc.old_path
        added_lines := fc.added_lines
        removed_lines := fc.removed_lines
        hunks := fc.hunks
        purpose := "Changes in " ++ fc.path }

/-- Claim C10: the file-analysis step preserves all parsed metadata — on the
success branch and on the exception-fallback branch alike, the analyzed
FileChange keeps the parsed path, change type, old path, line counts and
hunks; only `purpose` is (re)written. -/
theorem c10_analyze_preserves_metadata (resp : Option String)
    (fc : GitFileChange) :
    (analyzeFile resp fc).path = fc.path ∧
    (analyzeFile resp fc).change_type = fc.change_type ∧
    (analyzeFile resp fc).old_path = fc.old_path ∧
    (analyzeFile resp fc).added_lines = fc.added_lines ∧
    (analyzeFile resp fc).removed_lines = fc.removed_lines ∧
    (analyzeFile resp fc).hunks = fc.hunks := by
  cases resp
  · exact ⟨rfl, rfl, rfl, rfl, rfl, rfl⟩
  · exact ⟨rfl, rfl, rfl, rfl, rfl, rfl⟩

/-- The closed literal set shared by `GitDiffAnalysis.change_type` and
`ConventionalCommit.type` (commit_agent.py lines 56 and 62). -/
def changeTypes : List String :=
  ["feat", "fix", "docs", "refactor", "test", "chore", "style", "perf"]

/-- Construction of the final `GitDiffAnalysis` from the summary response
(commit_agent.py lines 356-362).  The pydantic `Literal` annotation on
`change_type` rejects any value outside the closed set by raising a
`ValidationError`, modelled as `Except.error`; there is no retry and no
default substitution anywhere on this path. -/
def mkGitDiffAnalysis (summary change_type : String) (files : List GitFileChange)
    (breaking_change : Bool) : Except String GitDiffAnalysis :=
  if changeTypes.contains change_type then
    Except.ok ⟨summary, change_type, files, breaking_change⟩
  else
    Except.error ("1 validation error for GitDiffAnalysis: change_type " ++ change_type)

/-- The model responses consumed by one run of the workflow: the per-file
purpose completions (indexed in file order; `none` models a malformed
completion), the summarization completion, the commit-message completion and
the quality-loop responses. -/
structure ModelOracle where
  filePurpose : Nat → Option String
  summaryText : String
  summaryChangeType : String
  summaryBreaking : Bool
  commitType : String
  commitScope : Option String
  commitDescription : String
  commitBreaking : Bool
  commitBody : Option String
  commitFooter : Option String
  verdicts : Nat → Bool
  improved : Nat → String

/-- The quality-loop slice of a `ModelOracle`. -/
def ModelOracle.quality (o : ModelOracle) : QualityOracle :=
  { verdicts := o.verdicts, improved := o.improved }

/-- Node 2 `analyze_changes` (commit_agent.py lines 239-374), parameterised
by the `unidiff.PatchSet` parse `P` of the raw text and the model oracle.
The node parses `messages[-1].content`, requests one completion per parsed
file (every file, with no special case for any change type), then requests
one summarization completion and validates its `change_type`; the second
component counts the model invocations issued, which happen before the
validation can fail. -/
def analyze_changes (P : String → List PatchedFile) (o : ModelOracle)
    (s : AgentState) : Except String AgentState × Nat :=
  let parsed := parse_git_diff (P (lastContent s))
  let analyzed := (parsed.enum.map (fun p => analyzeFile (o.filePurpose p.1) p.2))
  let calls := parsed.length + 1
  match mkGitDiffAnalysis o.summaryText o.summaryChangeType analyzed
      o.summaryBreaking with
  | Except.error e => (Except.error e, calls)
  | Except.ok a =>
      (Except.ok
        { s with
          analysis := some a
          messages := s.messages ++
            [Msg.aiAnalysis a.summary a.change_type a.files a.breaking_change] },
       calls)

/-- A parse of text containing no file sections. -/
def emptyParse : String → List PatchedFile := fun _ => []

/-- State entering `analyze_changes` with the staged-diff message last. -/
def sHuman : AgentState :=
  { messages := [Msg.human "diff text"]
    attempts := 0
    next := "analyze"
    analysis := none
    final_message := none
    message_history := [] }

/-- A model whose summarization completion carries the out-of-set
change_type `"banana"`. -/
def oBadType : ModelOracle :=
  { filePurpose := fun _ => none
    summaryText := "a summary"
    summaryChangeType := "banana"
    summaryBreaking := false
    commitType := "chore"
    commitScope := none
    commitDescription := "update things"
    commitBreaking := false
    commitBody := none
    commitFooter := none
    verdicts := fun _ => true
    improved := fun _ => "" }

/-- Claim C4 counterexample: when the summarization response carries the
out-of-set change_type `"banana"`, the step raises a pydantic validation
error that propagates — it does NOT issue a retry request (the model-call
count stays at `files + 1 = 1` for an empty file list instead of the 2 a
retry would produce) and no `"chore"` default is ever substituted (the step
produces no analysis at all). -/
theorem c4_out_of_set_counterexample :
    (analyze_changes emptyParse oBadType sHuman).1 =
      Except.error
        ("1 validation error for GitDiffAnalysis: change_type " ++ "banana") ∧
    (analyze_changes emptyParse oBadType sHuman).2 = 1 := by
  constructor
  · rfl
  · rfl

/-- Claim C4 (amended): a summarization response whose change_type lies
outside the closed set makes the analysis construction fail with a
validation error that propagates; the step never issues a retry request
(its model-call count is always exactly the number of parsed files plus
the single summarization call) and never defaults the change_type to
"chore". -/
theorem c4_no_retry_no_default :
    (∀ (st ct : String) (files : List GitFileChange) (bk : Bool),
      changeTypes.contains ct = false →
      mkGitDiffAnalysis st ct files bk =
        Except.error
          ("1 validation error for GitDiffAnalysis: change_type " ++ ct)) ∧
    (∀ (P : String → List PatchedFile) (o : ModelOracle) (s : AgentState),
      (analyze_changes P o s).2 =
        (parse_git_diff (P (lastContent s))).length + 1) := by
  constructor
  · intro st ct files bk h
    have h2 : ¬ (changeTypes.contains ct = true) := by rw [h]; decide
    simp only [mkGitDiffAnalysis, if_neg h2]
  · intro P o s
    simp only [analyze_changes]
    split
    · rfl
    · rfl

/-- Claim C4 witness: the amended statement evaluated at the `"banana"`
response and at the concrete empty-diff analysis step. -/
theorem c4_no_retry_no_default_witness :
    mkGitDiffAnalysis "a summary" "banana" [] false =
      Except.error
        ("1 validation error for GitDiffAnalysis: change_type " ++ "banana") ∧
    (analyze_changes emptyParse oBadType sHuman).2 = 1 :=
  ⟨c4_no_retry_no_default.1 "a summary" "banana" [] false rfl,
   by rw [c4_no_retry_no_default.2 emptyParse oBadType sHuman]; rfl⟩

/-- A binary-file section as reported by unidiff. -/
def pfBinary : PatchedFile :=
  { path := "assets/logo.png"
    source_file := "a/assets/logo.png"
    is_added_file := false
    is_removed_file := false
    is_rename := false
    is_binary_file := true
    hunks := [] }

/-- A parse yielding exactly the one binary-file section. -/
def binaryParse : String → List PatchedFile := fun _ => [pfBinary]

/-- A model whose per-file completion returns a purpose string. -/
def oBinary : ModelOracle :=
  { filePurpose := fun _ => some "model generated purpose"
    summaryText := "a summary"
    summaryChangeType := "chore"
    summaryBreaking := false
    commitType := "chore"
    commitScope := none
    commitDescription := "update assets"
    commitBreaking := false
    commitBody := none
    commitFooter := none
    verdicts := fun _ => true
    improved := fun _ => "" }

/-- Claim C5 counterexample: the per-file loop of `analyze_changes` has no
BINARY special case (commit_agent.py lines 247-283).  For a diff parsing to
a single BINARY FileChange the step makes 2 model invocations (one for the
binary file plus the summarization call) instead of the claimed 1, and the
binary file's purpose is the model's response, not a fixed template. -/
theorem c5_binary_counterexample :
    (parseFileChange pfBinary).change_type = ChangeType.BINARY ∧
    (analyze_changes binaryParse oBinary sHuman).2 = 2 ∧
    Except.map (fun s => s.analysis.map (fun a => a.files.map GitFileChange.purpose))
        (analyze_changes binaryParse oBinary sHuman).1 =
      Except.ok (some ["model generated purpose"]) := by
  refine ⟨rfl, rfl, rfl⟩

/-- Claim C5 (amended): the file-analysis step issues one model invocation
for every parsed FileChange regardless of its change type — BINARY entries
included — and a BINARY entry's purpose is taken from the model response
like any other; the fixed template `"Changes in {path}"` is used only as the
malformed-response fallback, for every change type alike. -/
theorem c5_every_file_gets_model_call :
    (∀ (P : String → List PatchedFile) (o : ModelOracle) (s : AgentState),
      (analyze_changes P o s).2 =
        (parse_git_diff (P (lastContent s))).length + 1) ∧
    (∀ (p : String) (fc : GitFileChange), fc.change_type = ChangeType.BINARY →
      (analyzeFile (some p) fc).purpose = p) ∧
    (∀ (fc : GitFileChange), fc.change_type = ChangeType.BINARY →
      (analyzeFile none fc).purpose = "Changes in " ++ fc.path) := by
  refine ⟨?_, ?_, ?_⟩
  · intro P o s
    simp only [analyze_changes]
    split
    · rfl
    · rfl
  · intro p fc _
    rfl
  · intro fc _
    rfl

/-- Claim C5 witness: the amended statement evaluated at the concrete
binary-file run. -/
theorem c5_every_file_gets_model_call_witness :
    (analyze_changes binaryParse oBinary sHuman).2 = 2 ∧
    (analyzeFile (some "model generated purpose") (parseFileChange pfBinary)).purpose
      = "model generated purpose" ∧
    (analyzeFile none (parseFileChange pfBinary)).purpose
      = "Changes in " ++ (parseFileChange pfBinary).path :=
  ⟨by rw [c5_every_file_gets_model_call.1 binaryParse oBinary sHuman]; rfl,
   c5_every_file_gets_model_call.2.1 "model generated purpose"
     (parseFileChange pfBinary) (by decide),
   c5_every_file_gets_model_call.2.2 (parseFileChange pfBinary) (by decide)⟩

/-- Python single-character `str.split`, written by structural recursion so
that concrete evaluation reduces inside the kernel. -/
def splitCharList (sep : Char) : List Char → List (List Char)
  | [] => [[]]
  | c :: cs =>
      let r := splitCharList sep cs
      if c = sep then [] :: r
      else
        match r with
        | [] => [[c]]
        | h :: t => (c :: h) :: t

/-- Python `path.split('/')`. -/
def pySplit (sep : Char) (s : String) : List String :=
  (splitCharList sep s.data).map String.mk

/-- Insertion step of Python `sorted` over strings. -/
def insertStr (x : String) : List String → List String
  | [] => [x]
  | y :: ys => if x < y then x :: y :: ys else y :: insertStr x ys

/-- Python `sorted` over a list of strings (insertion sort; the result is
the ascending enumeration, which is all the code depends on). -/
def sortStrs : List String → List String
  | [] => []
  | x :: xs => insertStr x (sortStrs xs)

/-- The scope-candidate derivation of `generate_commit_message`
(commit_agent.py lines 391-396 and 428): for each file path, split on "/"
and, when there is more than one part, collect `parts[1]` into a set;
the prompt then receives `sorted(common_dirs)`. -/
def scopeCandidates (paths : List String) : List String :=
  sortStrs ((paths.filterMap (fun p =>
    let parts := pySplit '/' p
    if parts.length > 1 then parts.get? 1 else none)).dedup)

/-- The `scopes` string interpolated into the commit prompt
(commit_agent.py line 428): `", ".join(sorted(common_dirs)) or
"none detected"`. -/
def scopesString (paths : List String) : String :=
  let j := String.intercalate ", " (scopeCandidates paths)
  if j = "" then "none detected" else j

/-- Modelled from the spec: the claimed derivation — "the set of first path
segments of the changed files' paths, deduplicated and sorted".  Stated only
for comparison with `scopeCandidates`, the derivation the code performs. -/
def scopesFromFirstSegments (paths : List String) : List String :=
  sortStrs ((paths.filterMap (fun p => (pySplit '/' p).head?)).dedup)

/-- Claim C8: the code collects `path.split('/')[1]` — the SECOND path
segment — although its own comment says "Nimm den ersten Ordner" (take the
first folder) and the claim says first segment.  For the single file
`src/feature.ts` the prompt receives the scope candidate `feature.ts`
instead of `src`, and a path without any "/" contributes nothing at all
(`README.md` yields "none detected" rather than the segment `README.md`). -/
theorem c8_scope_segment_eval :
    scopeCandidates ["src/feature.ts"] = ["feature.ts"] ∧
    scopesString ["src/feature.ts"] = "feature.ts" ∧
    scopesFromFirstSegments ["src/feature.ts"] = ["src"] ∧
    scopeCandidates ["src/feature.ts"] ≠ scopesFromFirstSegments ["src/feature.ts"] ∧
    scopeCandidates ["README.md"] = [] ∧
    scopesString ["README.md"] = "none detected" ∧
    scopesFromFirstSegments ["README.md"] = ["README.md"] := by
  decide

/-- Pydantic model `ConventionalCommit` (commit_agent.py lines 60-67), with
the `Literal` check on `type` performed by `mkConventionalCommit`. -/
structure ConventionalCommit where
  type : String
  scope : Option String
  description : String
  breaking : Bool
  body : Option String
  footer : Option String
deriving DecidableEq, Repr

/-- Python `ConventionalCommit(**commit_data)` (commit_agent.py line 439): pydantic
rejects a `type` outside the closed literal set. -/
def mkConventionalCommit (ty : String) (scope : Option String)
    (description : String) (breaking : Bool) (body footer : Option String) :
    Except String ConventionalCommit :=
  if changeTypes.contains ty then
    Except.ok ⟨ty, scope, description, breaking, body, footer⟩
  else
    Except.error ("1 validation error for ConventionalCommit: type " ++ ty)

/-- Lines 434-439 of commit_agent.py: the parsed model response has its
`breaking` field unconditionally overwritten with the analysis value
(`commit_data['breaking'] = analysis['breaking_change']`) before the
`ConventionalCommit` is constructed; the model's own `commitBreaking` value
is discarded. -/
def commitFromResponse (breaking_change : Bool) (o : ModelOracle) :
    Except String ConventionalCommit :=
  mkConventionalCommit o.commitType o.commitScope o.commitDescription
    breaking_change o.commitBody o.commitFooter

/-- The `(scope)` fragment of the message (commit_agent.py lines 443-444). -/
def renderScope : Option String → String
  | some sc => "(" ++ sc ++ ")"
  | none => ""

/-- Optional body/footer block separated by a blank line
(commit_agent.py lines 449-452). -/
def renderOptBlock : Option String → String
  | some b => "\n\n" ++ b
  | none => ""

/-- The message rendering of `generate_commit_message`
(commit_agent.py lines 442-452): type, optional scope, `!` exactly when
`breaking`, `": "`, description, then optional body and footer. -/
def renderCommit (c : ConventionalCommit) : String :=
  c.type ++ renderScope c.scope ++ (if c.breaking then "!" else "") ++ ": " ++
    c.description ++ renderOptBlock c.body ++ renderOptBlock c.footer

/-- Node 3 `generate_commit_message` (commit_agent.py lines 378-460): reads
the analysis JSON from `messages[-1]`, derives the scope candidates for the
prompt, requests one completion constrained to the ConventionalCommit
schema, overwrites `breaking` with the analysis value, and appends the
rendered message.  The second component counts model invocations. -/
def generate_commit_message (o : ModelOracle) (s : AgentState) :
    Except String AgentState × Nat :=
  match s.messages.getLast? with
  | some (Msg.aiAnalysis _summary _ct files breaking_change) =>
      let _scopes := scopesString (files.map GitFileChange.path)
      (match commitFromResponse breaking_change o with
       | Except.error e => (Except.error e, 1)
       | Except.ok c =>
          (Except.ok { s with messages := s.messages ++ [Msg.ai (renderCommit c)] },
           1))
  | _ => (Except.error "json.loads: last message is not the analysis JSON", 0)

/-- Claim C3: whenever message generation produces a commit from a model
response, the commit's `breaking` field equals the analysis's
`breaking_change` — whatever `breaking` the model returned — and the
rendered message carries the `!` marker between the scope and the colon
exactly when `breaking_change` is true. -/
theorem c3_breaking_from_analysis (bk : Bool) (o : ModelOracle)
    (c : ConventionalCommit) (h : commitFromResponse bk o = Except.ok c) :
    c.breaking = bk ∧
    renderCommit c =
      c.type ++ renderScope c.scope ++ (if bk then "!" else "") ++ ": " ++
        c.description ++ renderOptBlock c.body ++ renderOptBlock c.footer := by
  simp only [commitFromResponse, mkConventionalCommit] at h
  split at h
  · cases h
    exact ⟨rfl, rfl⟩
  · cases h

/-- A model response claiming `breaking = false` for a breaking analysis. -/
def oNotBreaking : ModelOracle :=
  { filePurpose := fun _ => none
    summaryText := "a summary"
    summaryChangeType := "feat"
    summaryBreaking := true
    commitType := "feat"
    commitScope := some "core"
    commitDescription := "add parser"
    commitBreaking := false
    commitBody := none
    commitFooter := none
    verdicts := fun _ => true
    improved := fun _ => "" }

/-- The commit actually constructed from `oNotBreaking` when the analysis
says `breaking_change = true`. -/
def cOverridden : ConventionalCommit :=
  ⟨"feat", some "core", "add parser", true, none, none⟩

/-- Claim C3 witness: although the model answered `breaking = false`, the
constructed commit carries the analysis value `true` and the rendered
message is `feat(core)!: add parser`. -/
theorem c3_breaking_from_analysis_witness :
    (cOverridden.breaking = true ∧
      renderCommit cOverridden =
        cOverridden.type ++ renderScope cOverridden.scope ++
          (if true then "!" else "") ++ ": " ++ cOverridden.description ++
          renderOptBlock cOverridden.body ++ renderOptBlock cOverridden.footer) ∧
    renderCommit cOverridden = "feat(core)!: add parser" :=
  ⟨c3_breaking_from_analysis true oNotBreaking cOverridden rfl, by decide⟩

/-- Method `GitHandler.get_staged_diff` (git.py lines 26-43): returns
`repo.git.diff("--cached")`, raising `GitHandlerError("Keine Änderungen
staged")` when that diff is empty — the NoStagedChanges failure. -/
def get_staged_diff (diff : String) : Except String String :=
  if diff = "" then Except.error "Keine Änderungen staged" else Except.ok diff

/-- Node 1 `get_git_diff` (commit_agent.py lines 110-123): on success the
staged diff is appended as a human message; a raised `GitHandlerError` is
caught by the node's `except` clause and converted into the AI message
`"Error getting git diff: ..."` — the state is returned either way, so the
graph proceeds to the analyze node in both cases. -/
def get_git_diff (diffRes : Except String String) (s : AgentState) : AgentState :=
  match diffRes with
  | Except.ok diff =>
      { s with messages := s.messages ++
          [Msg.human ("Here are the staged changes:\n\n" ++ diff)] }
  | Except.error e =>
      { s with messages := s.messages ++
          [Msg.ai ("Error getting git diff: " ++ e)] }

/-- The Markdown changelog section built by `generate_changelog`
(commit_agent.py lines 616-626). -/
def changelogEntry (a : GitDiffAnalysis) (msg : String) : String :=
  "## " ++ msg ++ "\n\n### 🔍 Summary\n" ++ a.summary ++
    "\n\n### 📝 Changed Files\n" ++
    String.intercalate "\n"
      (a.files.map (fun f => "- **" ++ f.path ++ "**: " ++ f.purpose)) ++
    "\n\n### 🔄 Type: `" ++ a.change_type ++ "`\n" ++
    (if a.breaking_change then "### ⚠️ BREAKING CHANGES" else "") ++ "\n"

/-- Node 6 `generate_changelog` (commit_agent.py lines 605-644): formats the
stored analysis and final message and appends `"\n" + entry + "\n"` to the
changelog file; the appended chunk is returned alongside the state.  Reading
`state["analysis"]`/`state["final_message"]` as objects fails when they were
never set, modelled as an error. -/
def generate_changelog (s : AgentState) : Except String (AgentState × String) :=
  match s.analysis, s.final_message with
  | some a, some m =>
      let entry := changelogEntry a m
      Except.ok
        ({ s with messages := s.messages ++ [Msg.ai entry] },
         "\n" ++ entry ++ "\n")
  | _, _ => Except.error "state has no analysis or final message"

/-- The initial state built by `CommitAgent.stream`
(commit_agent.py lines 690-697). -/
def initialState : AgentState :=
  { messages := []
    attempts := 0
    next := "generate_message"
    analysis := none
    final_message := none
    message_history := [] }

/-- Outcome of one workflow invocation: the first propagated error (if any),
the total number of model invocations issued, the node kinds executed in
order, the number of CheckQuality executions, the chunks appended to the
changelog file, and the last state. -/
structure RunResult where
  error : Option String
  modelCalls : Nat
  visited : List String
  checks : Nat
  changelogWrites : List String
  state : AgentState
deriving DecidableEq, Repr

/-- The compiled graph of `create_graph` (commit_agent.py lines 702-736) run
on one invocation: START → get_diff → analyze → generate_message →
check_quality ⇄ improve_message → generate_changelog → END, with the
conditional edge keyed on `state["next"]`.  An exception raised inside a
node ends the run with that error and the remaining nodes never execute.
The quality cycle is given recursion budget 6, which `runQualityLoop_total`
proves can never be exhausted from the fresh state. -/
def runWorkflow (P : String → List PatchedFile) (o : ModelOracle)
    (diffRes : Except String String) : RunResult :=
  let s1 := get_git_diff diffRes initialState
  let ra := analyze_changes P o s1
  match ra.1 with
  | Except.error e =>
      { error := some e, modelCalls := ra.2, visited := ["get_diff", "analyze"]
        checks := 0, changelogWrites := [], state := s1 }
  | Except.ok s2 =>
    let rg := generate_commit_message o s2
    match rg.1 with
    | Except.error e =>
        { error := some e, modelCalls := ra.2 + rg.2
          visited := ["get_diff", "analyze", "generate_message"]
          checks := 0, changelogWrites := [], state := s2 }
    | Except.ok s3 =>
      match runQualityLoop o.quality 6 0 s3 with
      | none =>
          { error := some "graph recursion limit"
            modelCalls := ra.2 + rg.2
            visited := ["get_diff", "analyze", "generate_message", "check_quality"]
            checks := 0, changelogWrites := [], state := s3 }
      | some r =>
        match generate_changelog r.state with
        | Except.error e =>
            { error := some e, modelCalls := ra.2 + rg.2 + r.checks + r.improves
              visited := ["get_diff", "analyze", "generate_message", "check_quality"]
              checks := r.checks, changelogWrites := [], state := r.state }
        | Except.ok sw =>
            { error := none
              modelCalls := ra.2 + rg.2 + r.checks + r.improves
              visited := ["get_diff", "analyze", "generate_message",
                "check_quality", "generate_changelog"]
              checks := r.checks
              changelogWrites := [sw.2]
              state := sw.1 }

/-- State after the get_diff node when nothing is staged: the caught error
has been appended as a message. -/
def c2s1 : AgentState :=
  get_git_diff (Except.error "Keine Änderungen staged") initialState

/-- The analysis produced from the summarization response when the parsed
file list is empty. -/
def c2analysis (o : ModelOracle) : GitDiffAnalysis :=
  ⟨o.summaryText, o.summaryChangeType, [], o.summaryBreaking⟩

/-- State after the analyze node on the empty-diff run. -/
def c2s2 (o : ModelOracle) : AgentState :=
  { c2s1 with
    analysis := some (c2analysis o)
    messages := c2s1.messages ++
      [Msg.aiAnalysis o.summaryText o.summaryChangeType [] o.summaryBreaking] }

/-- The commit constructed on the empty-diff run. -/
def c2commit (o : ModelOracle) : ConventionalCommit :=
  ⟨o.commitType, o.commitScope, o.commitDescription, o.summaryBreaking,
    o.commitBody, o.commitFooter⟩

/-- State after the generate_message node on the empty-diff run. -/
def c2s3 (o : ModelOracle) : AgentState :=
  { c2s2 o with
    messages := (c2s2 o).messages ++ [Msg.ai (renderCommit (c2commit o))] }

lemma c2_analyze_eq (P : String → List PatchedFile) (o : ModelOracle)
    (hP : P "Error getting git diff: Keine Änderungen staged" = [])
    (h1 : changeTypes.contains o.summaryChangeType = true) :
    analyze_changes P o c2s1 = (Except.ok (c2s2 o), 1) := by
  have hl : lastContent c2s1 = "Error getting git diff: Keine Änderungen staged" :=
    rfl
  simp only [analyze_changes, hl, hP, parse_git_diff, List.map_nil, List.enum_nil,
    List.length_nil, mkGitDiffAnalysis]
  rw [if_pos h1]
  rfl

lemma c2_generate_eq (o : ModelOracle)
    (h2 : changeTypes.contains o.commitType = true) :
    generate_commit_message o (c2s2 o) = (Except.ok (c2s3 o), 1) := by
  have hlast : (c2s2 o).messages.getLast? =
      some (Msg.aiAnalysis o.summaryText o.summaryChangeType [] o.summaryBreaking) :=
    rfl
  simp only [generate_commit_message, hlast, commitFromResponse,
    mkConventionalCommit]
  rw [if_pos h2]
  rfl

/-- Claim C2 (amended): for an empty staged diff `get_staged_diff` raises
the NoStagedChanges `GitHandlerError`, but the `get_git_diff` node catches
it and stores an error message instead of propagating, so the workflow is
NOT terminated: every later node executes, at least three model invocations
occur (summarization, message generation and at least one quality check),
and — whenever the model responses are schema-valid — the run finishes
without error and appends exactly one section to the changelog file. -/
theorem c2_nostaged_not_fatal (P : String → List PatchedFile) (o : ModelOracle)
    (hP : P "Error getting git diff: Keine Änderungen staged" = [])
    (h1 : changeTypes.contains o.summaryChangeType = true)
    (h2 : changeTypes.contains o.commitType = true) :
    get_staged_diff "" = Except.error "Keine Änderungen staged" ∧
    (runWorkflow P o (Except.error "Keine Änderungen staged")).error = none ∧
    3 ≤ (runWorkflow P o (Except.error "Keine Änderungen staged")).modelCalls ∧
    (runWorkflow P o (Except.error "Keine Änderungen staged")).changelogWrites.length
      = 1 ∧
    (runWorkflow P o (Except.error "Keine Änderungen staged")).visited =
      ["get_diff", "analyze", "generate_message", "check_quality",
        "generate_changelog"] := by
  have ha0 : (c2s3 o).attempts = 0 := rfl
  obtain ⟨r, hr, rnx, rc, rck1, rat, ⟨m, rfm⟩, ran⟩ :=
    runQualityLoop_total o.quality 6 0 (c2s3 o) (by rw [ha0]; omega)
      (by rw [ha0])
  have ran2 : r.state.analysis = some (c2analysis o) := by
    rw [ran]
    rfl
  have hgc : generate_changelog r.state =
      Except.ok
        ({ r.state with
            messages := r.state.messages ++ [Msg.ai (changelogEntry (c2analysis o) m)] },
         "\n" ++ changelogEntry (c2analysis o) m ++ "\n") := by
    simp only [generate_changelog, ran2, rfm]
  have emain : runWorkflow P o (Except.error "Keine Änderungen staged") =
      { error := none
        modelCalls := 1 + 1 + r.checks + r.improves
        visited := ["get_diff", "analyze", "generate_message",
          "check_quality", "generate_changelog"]
        checks := r.checks
        changelogWrites := ["\n" ++ changelogEntry (c2analysis o) m ++ "\n"]
        state := { r.state with
          messages := r.state.messages ++ [Msg.ai (changelogEntry (c2analysis o) m)] } } := by
    simp only [runWorkflow,
      show get_git_diff (Except.error "Keine Änderungen staged") initialState = c2s1
        from rfl,
      c2_analyze_eq P o hP h1, c2_generate_eq o h2, hr, hgc]
  refine ⟨rfl, ?_, ?_, ?_, ?_⟩
  · rw [emain]
  · rw [emain]
    have hle : 3 ≤ 1 + 1 + r.checks + r.improves := by omega
    exact hle
  · rw [emain]
    exact rfl
  · rw [emain]

/-- A schema-valid model for the empty-diff run whose quality gate accepts
immediately. -/
def oC2 : ModelOracle :=
  { filePurpose := fun _ => none
    summaryText := "no staged changes"
    summaryChangeType := "chore"
    summaryBreaking := false
    commitType := "chore"
    commitScope := none
    commitDescription := "update"
    commitBreaking := false
    commitBody := none
    commitFooter := none
    verdicts := fun _ => true
    improved := fun _ => "" }

/-- Claim C2 counterexample: on an empty staged diff the workflow does NOT
terminate with the NoStagedChanges failure — `get_staged_diff` raises it,
but the run finishes with no error, executes the analyze, generate_message,
check_quality and generate_changelog nodes, makes 3 model invocations
instead of zero, and appends a section to the changelog file. -/
theorem c2_empty_diff_counterexample :
    get_staged_diff "" = Except.error "Keine Änderungen staged" ∧
    (runWorkflow (fun _ => []) oC2 (get_staged_diff "")).error = none ∧
    (runWorkflow (fun _ => []) oC2 (get_staged_diff "")).modelCalls = 3 ∧
    (runWorkflow (fun _ => []) oC2 (get_staged_diff "")).changelogWrites.length
      = 1 ∧
    (runWorkflow (fun _ => []) oC2 (get_staged_diff "")).visited =
      ["get_diff", "analyze", "generate_message", "check_quality",
        "generate_changelog"] :=
  ⟨rfl, rfl, rfl, rfl, rfl⟩

/-- Claim C2 witness: the amended statement applied at the concrete
empty parse and schema-valid model. -/
theorem c2_nostaged_not_fatal_witness :
    get_staged_diff "" = Except.error "Keine Änderungen staged" ∧
    (runWorkflow (fun _ => []) oC2 (Except.error "Keine Änderungen staged")).error
      = none ∧
    3 ≤ (runWorkflow (fun _ => []) oC2
        (Except.error "Keine Änderungen staged")).modelCalls ∧
    (runWorkflow (fun _ => []) oC2
        (Except.error "Keine Änderungen staged")).changelogWrites.length = 1 ∧
    (runWorkflow (fun _ => []) oC2
        (Except.error "Keine Änderungen staged")).visited =
      ["get_diff", "analyze", "generate_message", "check_quality",
        "generate_changelog"] :=
  c2_nostaged_not_fatal (fun _ => []) oC2 rfl rfl rfl

/-- Claim C6 witness: the amended statement evaluated at the concrete
deleted-file section. -/
theorem c6_old_path_iff_deleted_or_renamed_witness :
    (parseFileChange pfDeleted).old_path.isSome = true ↔
      ((parseFileChange pfDeleted).change_type = ChangeType.DELETED ∨
        (parseFileChange pfDeleted).change_type = ChangeType.RENAMED) :=
  c6_old_path_iff_deleted_or_renamed pfDeleted

/-- Claim C9 witness: the amended ledger shape evaluated at a concrete
accepting quality check and a concrete improvement step. -/
theorem c9_ledger_shape_witness :
    (∃ t, (check_quality true c9State).message_history =
        c9State.message_history ++ t ∧
      t.map LedgerEntry.status =
        (if true = true ∨ 5 ≤ c9State.attempts then [qualityStatus true, "final"]
         else ["failed"])) ∧
    (∃ t, (improve_message "m" c9State).message_history =
        c9State.message_history ++ t ∧
      t.map LedgerEntry.status = ["failed", "improved"]) ∧
    (qualityStatus true = "success" ∨ qualityStatus true = "failed") :=
  c9_ledger_shape true c9State "m"

/-- Claim C10 witness: the frame property evaluated on the fallback branch
at the concrete deleted-file change. -/
theorem c10_analyze_preserves_metadata_witness :
    (analyzeFile none (parseFileChange pfDeleted)).path =
      (parseFileChange pfDeleted).path ∧
    (analyzeFile none (parseFileChange pfDeleted)).change_type =
      (parseFileChange pfDeleted).change_type ∧
    (analyzeFile none (parseFileChange pfDeleted)).old_path =
      (parseFileChange pfDeleted).old_path ∧
    (analyzeFile none (parseFileChange pfDeleted)).added_lines =
      (parseFileChange pfDeleted).added_lines ∧
    (analyzeFile none (parseFileChange pfDeleted)).removed_lines =
      (parseFileChange pfDeleted).removed_lines ∧
    (analyzeFile none (parseFileChange pfDeleted)).hunks =
      (parseFileChange pfDeleted).hunks :=
  c10_analyze_preserves_metadata none (parseFileChange pfDeleted)
